import Mathlib

/-!
Shallow embedding of the conversational control plane of the algo-intent
Telegram bot (`src/telegram_bot.py`, with the fallback-intent layer of
`src/ai_intent.py` abstracted as an oracle), together with proofs settling
the frozen specification claims.

Modelling conventions:
* Python strings are `String`/`List Char`; a value that may be `None` or a
  non-string is `Option String` (`none` models both `None` and non-string
  input, which the source treats identically).
* Wall-clock instants (`datetime`) are `Nat` seconds; `timedelta(hours=1)`
  is `3600`, `timedelta(hours=24)` is `86400`.  `a - b > timedelta(h)`
  on datetimes is `b + h*3600 < a` on `Nat`.
* The persisted session store is a total map `String → Option Session`;
  `save_sessions` is modelled by returning the updated map (the file-level
  atomic-replace mechanics carry no logic that the claims depend on).
  `load_sessions`' corruption handling is modelled separately on an explicit
  file state.
* External collaborators (wallet, ledger, language-understanding service,
  and the spelled-out-number converter `text_to_number` from the absent
  `utils.py`) are oracle parameters carried in an `Env`; every handler
  records which collaborators it invoked.
* Python regexes are embedded as executable matchers over
  whitespace-tokenised input; `re.search` anywhere-semantics is modelled by
  trying every token start and letting the leading alternation group match
  a suffix of its token (as an unanchored regex would).
-/

namespace AlgoIntent

/-- Security configuration constants of `telegram_bot.py`. -/
def MAX_MESSAGE_LENGTH : Nat := 1000

/-- `MAX_PASSWORD_ATTEMPTS = 3`. -/
def MAX_PASSWORD_ATTEMPTS : Nat := 3

/-- `SESSION_TIMEOUT_HOURS = 24`, in seconds. -/
def SESSION_TIMEOUT_SECS : Nat := 24 * 3600

/-- `MAX_TRANSACTIONS_PER_HOUR = 10`. -/
def MAX_TRANSACTIONS_PER_HOUR : Nat := 10

/-- The rolling rate window (1 hour), in seconds. -/
def RATE_WINDOW_SECS : Nat := 3600

/-- Characters removed by `re.sub(r'[\x00-\x1f\x7f-\x9f]', '', text)`:
the control ranges U+0000-U+001F and U+007F-U+009F. -/
def isCtl (c : Char) : Bool :=
  decide (c.toNat ≤ 0x1f) || (decide (0x7f ≤ c.toNat) && decide (c.toNat ≤ 0x9f))

/-- Whitespace stripped by Python `str.strip()` (ASCII subset; the control
range was already removed before `strip` runs in `sanitize_input`). -/
def pySpace (c : Char) : Bool :=
  c = ' ' || c = '\t' || c = '\n' || c = '\r' || c = '\x0b' || c = '\x0c'

/-- Case-insensitive character comparison, as `re.IGNORECASE` sees ASCII. -/
def ciEq (a b : Char) : Bool := a.toLower = b.toLower

/-- `ciStarts pat l`: `pat` is a case-insensitive prefix of `l`. -/
def ciStarts : List Char → List Char → Bool
  | [], _ => true
  | _ :: _, [] => false
  | p :: ps, c :: cs => ciEq p c && ciStarts ps cs

/-- One pass of `re.sub(pattern, '', s)` for a pattern with no empty match:
scan left to right; when the hit oracle `f` reports a match of length
`k + 1` at the current position, delete it and continue after it, else keep
the character.  Fuel-indexed so that it is structurally recursive (fuel is
always the length of the list). -/
def scrubAux (f : List Char → Option Nat) : Nat → List Char → List Char
  | 0, l => l
  | _ + 1, [] => []
  | fuel + 1, c :: cs =>
    match f (c :: cs) with
    | some k => scrubAux f fuel ((c :: cs).drop (k + 1))
    | none => c :: scrubAux f fuel cs

/-- Remove every non-overlapping leftmost match reported by `f`. -/
def scrub (f : List Char → Option Nat) (l : List Char) : List Char :=
  scrubAux f l.length l

/-- Hit oracle for a case-insensitive literal pattern: a match of length
`pat.length` at the head, reported as `pat.length - 1` (the scrubber adds
one back). -/
def litHit (pat : List Char) (l : List Char) : Option Nat :=
  if !pat.isEmpty && ciStarts pat l then some (pat.length - 1) else none

/-- For `<script.*?</script>` (non-greedy, `.` not matching a newline):
number of characters between the opening tag and the earliest closing tag
on the same line, or `none`. -/
def scanClose : List Char → Option Nat
  | [] => none
  | c :: cs =>
    if ciStarts "</script>".toList (c :: cs) then some 0
    else if c = '\n' then none
    else (scanClose cs).map (· + 1)

/-- Hit oracle for `<script.*?</script>`: total match length is
`7 + j + 9` where `j` is the inner length. -/
def scriptHit (l : List Char) : Option Nat :=
  if ciStarts "<script".toList l then
    (scanClose (l.drop 7)).map (fun j => 7 + j + 9 - 1)
  else none

/-- The literal members of `dangerous_patterns` in source order (the
`<script.*?</script>` pattern is handled by `scriptHit`). -/
def dangerousLits : List (List Char) :=
  ["javascript:".toList, "data:".toList, "vbscript:".toList,
   "onload=".toList, "onerror=".toList, "eval(".toList, "exec(".toList]

/-- The `for pattern in dangerous_patterns: sanitized = re.sub(...)` loop. -/
def removeDangerous (l : List Char) : List Char :=
  dangerousLits.foldl (fun acc pat => scrub (litHit pat) acc) (scrub scriptHit l)

/-- Python `str.strip()`. -/
def pyStrip (l : List Char) : List Char :=
  ((l.dropWhile pySpace).reverse.dropWhile pySpace).reverse

/-- The character-level pipeline of `sanitize_input`: control-character
removal, truncation to `MAX_MESSAGE_LENGTH`, dangerous-pattern removal,
strip. -/
def sanitizeList (l : List Char) : List Char :=
  pyStrip (removeDangerous ((l.filter (fun c => !isCtl c)).take MAX_MESSAGE_LENGTH))

/-- `sanitize_input(text)`.  `none` models `None` or any non-string value
(`not isinstance(text, str)`); the empty string is also rejected up front
(`if not text`).  The function is total: it never raises. -/
def sanitize_input : Option String → String
  | none => ""
  | some s => if s = "" then "" else String.mk (sanitizeList s.data)

/-- A character of the fixed base-32 alphabet `[A-Z2-7]`. -/
def isBase32Upper (c : Char) : Bool :=
  (decide ('A' ≤ c) && decide (c ≤ 'Z')) || (decide ('2' ≤ c) && decide (c ≤ '7'))

/-- `validate_algorand_address(address)`: `None`/non-string/empty is
rejected, length must be exactly 58 and every character must be in
`[A-Z2-7]` (the regex `^[A-Z2-7]{58}$`); no checksum is computed. -/
def validate_algorand_address : Option String → Bool
  | none => false
  | some a =>
    if a = "" then false
    else if a.length ≠ 58 then false
    else a.data.all isBase32Upper

/-- Address check on a known-string value. -/
def validAddr (s : String) : Bool := validate_algorand_address (some s)

/-- Wall-clock instants, in seconds. -/
abbrev Time := Nat

/-- One persisted per-user session record. -/
structure Session where
  address : String := ""
  encrypted_mnemonic : String := ""
  created_at : Option Time := none
  last_activity : Option Time := none
  recent_transactions : List Time := []
deriving DecidableEq, Repr

/-- The persisted session store, `user_key ↦ session`. -/
def Sessions := String → Option Session

/-- The empty store. -/
def Sessions.empty : Sessions := fun _ => none

/-- `sessions[user_key] = v`. -/
def Sessions.set (s : Sessions) (k : String) (v : Session) : Sessions :=
  fun k2 => if k2 = k then some v else s k2

/-- `del sessions[user_key]`. -/
def Sessions.erase (s : Sessions) (k : String) : Sessions :=
  fun k2 => if k2 = k then none else s k2

/-- A transaction timestamp still inside the trailing 1-hour window:
`datetime.fromisoformat(tx_time) > current_time - timedelta(hours=1)`. -/
def freshTx (now : Time) (t : Time) : Bool := decide (now < t + RATE_WINDOW_SECS)

/-- `check_user_rate_limit(user_id, action_type)`: returns the boolean
verdict and the (possibly re-saved) store.  For `"transaction"` the recent
list is pruned to the window; at or above the cap the call is refused with
nothing written; below it the current time is appended and persisted.  Any
other action type always passes. -/
def check_user_rate_limit (sessions : Sessions) (user_key action_type : String)
    (now : Time) : Bool × Sessions :=
  match sessions user_key with
  | none => (true, sessions)
  | some us =>
    if action_type = "transaction" then
      let recent := us.recent_transactions.filter (freshTx now)
      if MAX_TRANSACTIONS_PER_HOUR ≤ recent.length then (false, sessions)
      else (true, sessions.set user_key { us with recent_transactions := recent ++ [now] })
    else (true, sessions)

/-- `validate_session(user_id)`: no session ⇒ false; expired
(`now - last_activity > 24h`) ⇒ session deleted and false; else
`last_activity` is refreshed to `now` and the store persisted. -/
def validate_session (sessions : Sessions) (user_key : String) (now : Time) :
    Bool × Sessions :=
  match sessions user_key with
  | none => (false, sessions)
  | some us =>
    let expired :=
      match us.last_activity with
      | some la => decide (la + SESSION_TIMEOUT_SECS < now)
      | none => false
    if expired then (false, sessions.erase user_key)
    else (true, sessions.set user_key { us with last_activity := some now })

/-- File-level state of the session store: the canonical file's content (if
it exists) and the timestamped backup files produced by rename-aside. -/
structure FileState where
  main : Option String := none
  backups : List (Nat × String) := []
deriving DecidableEq, Repr

/-- `load_sessions()` on the explicit file state, with the JSON decoder as
a parameter: no file ⇒ empty mapping; decodable file ⇒ its contents;
undecodable file ⇒ empty mapping, and the file is renamed to
`telegram_sessions.json.backup.<time>` (its content preserved), never
deleted. -/
def load_sessions (decode : String → Option Sessions) (now : Time)
    (fs : FileState) : Sessions × FileState :=
  match fs.main with
  | none => (Sessions.empty, fs)
  | some content =>
    match decode content with
    | some s => (s, fs)
    | none => (Sessions.empty, { main := none, backups := (now, content) :: fs.backups })

/-! ### Generic facts about the sanitizer pipeline -/

theorem string_mk_data (l : List Char) : (String.mk l).data = l := rfl

theorem string_mk_length (l : List Char) : (String.mk l).length = l.length := rfl

theorem scrubAux_sublist (f : List Char → Option Nat) :
    ∀ (fuel : Nat) (l : List Char), List.Sublist (scrubAux f fuel l) l := by
  intro fuel
  induction fuel with
  | zero => intro l; simp [scrubAux]
  | succ n ih =>
    intro l
    match l with
    | [] => simp [scrubAux]
    | c :: cs =>
      simp only [scrubAux]
      cases hf : f (c :: cs) with
      | some k =>
        exact (ih ((c :: cs).drop (k + 1))).trans (List.drop_sublist (k + 1) (c :: cs))
      | none => exact (ih cs).cons₂ c

theorem scrub_sublist (f : List Char → Option Nat) (l : List Char) :
    List.Sublist (scrub f l) l :=
  scrubAux_sublist f l.length l

theorem removeDangerous_sublist (l : List Char) :
    List.Sublist (removeDangerous l) l := by
  have main : ∀ (pats : List (List Char)) (acc : List Char),
      List.Sublist (pats.foldl (fun a pat => scrub (litHit pat) a) acc) acc := by
    intro pats
    induction pats with
    | nil => intro acc; simp
    | cons p ps ih =>
      intro acc
      exact (ih (scrub (litHit p) acc)).trans (scrub_sublist (litHit p) acc)
  exact (main dangerousLits (scrub scriptHit l)).trans (scrub_sublist scriptHit l)

theorem pyStrip_sublist (l : List Char) : List.Sublist (pyStrip l) l := by
  unfold pyStrip
  have h1 : List.Sublist ((l.dropWhile pySpace).reverse.dropWhile pySpace)
      (l.dropWhile pySpace).reverse := List.dropWhile_sublist pySpace
  have h2 := h1.reverse
  rw [List.reverse_reverse] at h2
  exact h2.trans (List.dropWhile_sublist pySpace)

theorem sanitizeList_sublist_take (l : List Char) :
    List.Sublist (sanitizeList l) ((l.filter (fun c => !isCtl c)).take MAX_MESSAGE_LENGTH) := by
  unfold sanitizeList
  exact (pyStrip_sublist _).trans (removeDangerous_sublist _)

/-! ### C7 -/

theorem sanitizeList_length_le (l : List Char) :
    (sanitizeList l).length ≤ MAX_MESSAGE_LENGTH := by
  have h1 := (sanitizeList_sublist_take l).length_le
  have h2 : ((l.filter (fun c => !isCtl c)).take MAX_MESSAGE_LENGTH).length ≤
      MAX_MESSAGE_LENGTH := List.length_take_le _ _
  exact le_trans h1 h2

theorem sanitizeList_no_ctl (l : List Char) :
    ∀ c ∈ sanitizeList l, isCtl c = false := by
  intro c hc
  have hmem : c ∈ (l.filter (fun c => !isCtl c)).take MAX_MESSAGE_LENGTH :=
    (sanitizeList_sublist_take l).subset hc
  have := (List.mem_filter.mp (List.mem_of_mem_take hmem)).2
  simpa using this

/-- C7: `sanitize_input` never raises (it is a total function of its
modelled input); it returns `""` for non-string (`none`) or empty input,
and otherwise its output has length at most `MAX_MESSAGE_LENGTH = 1000`
and contains no control character of U+0000-U+001F or U+007F-U+009F. -/
theorem c7_sanitize_safe (x : Option String) :
    (sanitize_input x).length ≤ MAX_MESSAGE_LENGTH
    ∧ (∀ c ∈ (sanitize_input x).data, isCtl c = false)
    ∧ sanitize_input none = "" ∧ sanitize_input (some "") = "" := by
  have key : ∀ s : String, (sanitize_input (some s)).length ≤ MAX_MESSAGE_LENGTH
      ∧ ∀ c ∈ (sanitize_input (some s)).data, isCtl c = false := by
    intro s
    by_cases hs : s = ""
    · constructor
      · simp [sanitize_input, hs, MAX_MESSAGE_LENGTH]
      · simp [sanitize_input, hs]
    · have hval : sanitize_input (some s) = String.mk (sanitizeList s.data) := by
        simp [sanitize_input, hs]
      simp only [hval, string_mk_length, string_mk_data]
      exact ⟨sanitizeList_length_le s.data, sanitizeList_no_ctl s.data⟩
  match x with
  | none =>
    refine ⟨?_, ?_, rfl, rfl⟩
    · simp [sanitize_input, MAX_MESSAGE_LENGTH]
    · simp [sanitize_input]
  | some s => exact ⟨(key s).1, (key s).2, rfl, rfl⟩

/-! ### C4 -/

/-- C4: with exactly 10 timestamps inside the trailing hour the
`"transaction"` rate check refuses and writes nothing; with the oldest of
them older than one hour, pruning drops it, the check passes, and the
current instant is appended and persisted. -/
theorem c4_rate_limit (uid : String) (now : Time) :
    (∀ (s : Sessions) (us : Session), s uid = some us →
      us.recent_transactions.length = 10 →
      (∀ t ∈ us.recent_transactions, now < t + RATE_WINDOW_SECS) →
      check_user_rate_limit s uid "transaction" now = (false, s))
    ∧ (∀ (s : Sessions) (us : Session) (t0 : Time) (rest : List Time),
      s uid = some us →
      us.recent_transactions = t0 :: rest →
      t0 + RATE_WINDOW_SECS ≤ now →
      rest.length = 9 →
      (∀ t ∈ rest, now < t + RATE_WINDOW_SECS) →
      check_user_rate_limit s uid "transaction" now =
        (true, s.set uid { us with recent_transactions := rest ++ [now] })) := by
  constructor
  · intro s us hs hlen hfresh
    have hfilter : us.recent_transactions.filter (freshTx now) = us.recent_transactions :=
      List.filter_eq_self.mpr (fun t ht => by simpa [freshTx] using hfresh t ht)
    simp [check_user_rate_limit, hs, hfilter, hlen, MAX_TRANSACTIONS_PER_HOUR]
  · intro s us t0 rest hs hrec hold hlen hfresh
    have hfilter : us.recent_transactions.filter (freshTx now) = rest := by
      rw [hrec]
      have h0 : freshTx now t0 = false := by
        unfold freshTx
        exact decide_eq_false (Nat.not_lt.mpr hold)
      rw [List.filter_cons_of_neg (by simp [h0])]
      exact List.filter_eq_self.mpr (fun t ht => by simpa [freshTx] using hfresh t ht)
    simp [check_user_rate_limit, hs, hfilter, hlen, MAX_TRANSACTIONS_PER_HOUR]

/-- C4 witness: a concrete store with ten fresh timestamps is refused, and
the same store with the oldest aged out admits and records the call. -/
theorem c4_rate_limit_witness :
    (check_user_rate_limit
      (Sessions.empty.set "7" { recent_transactions := [100, 200, 300, 400, 500, 600, 700, 800, 900, 1000] })
      "7" "transaction" 1100 =
      (false, Sessions.empty.set "7" { recent_transactions := [100, 200, 300, 400, 500, 600, 700, 800, 900, 1000] }))
    ∧ (check_user_rate_limit
      (Sessions.empty.set "7" { recent_transactions := [100, 200, 300, 400, 500, 600, 700, 800, 900, 1000] })
      "7" "transaction" 3700 =
      (true, (Sessions.empty.set "7" { recent_transactions := [100, 200, 300, 400, 500, 600, 700, 800, 900, 1000] }).set "7"
        { recent_transactions := [200, 300, 400, 500, 600, 700, 800, 900, 1000, 3700] })) := by
  constructor
  · exact (c4_rate_limit "7" 1100).1
      (Sessions.empty.set "7" { recent_transactions := [100, 200, 300, 400, 500, 600, 700, 800, 900, 1000] })
      { recent_transactions := [100, 200, 300, 400, 500, 600, 700, 800, 900, 1000] }
      (by simp [Sessions.set]) (by decide) (by decide)
  · exact (c4_rate_limit "7" 3700).2
      (Sessions.empty.set "7" { recent_transactions := [100, 200, 300, 400, 500, 600, 700, 800, 900, 1000] })
      { recent_transactions := [100, 200, 300, 400, 500, 600, 700, 800, 900, 1000] }
      100 [200, 300, 400, 500, 600, 700, 800, 900, 1000]
      (by simp [Sessions.set]) rfl (by decide) (by decide) (by decide)

/-! ### C9 -/

/-- C9: two immediately successive `validate_session` calls on a
non-expired session both return true, and each rewrites `last_activity`
to a value not below the one it replaces (`la ≤ t1 ≤ t2`). -/
theorem c9_validate_session_idempotent (s : Sessions) (uid : String) (us : Session)
    (la t1 t2 : Time)
    (hs : s uid = some us) (hla : us.last_activity = some la)
    (h01 : la ≤ t1) (h12 : t1 ≤ t2)
    (hexp1 : t1 ≤ la + SESSION_TIMEOUT_SECS) (hexp2 : t2 ≤ t1 + SESSION_TIMEOUT_SECS) :
    (validate_session s uid t1).1 = true
    ∧ ((validate_session s uid t1).2 uid = some { us with last_activity := some t1 })
    ∧ (validate_session (validate_session s uid t1).2 uid t2).1 = true
    ∧ ((validate_session (validate_session s uid t1).2 uid t2).2 uid =
        some { us with last_activity := some t2 })
    ∧ la ≤ t1 ∧ t1 ≤ t2 := by
  have hne1 : ¬ (la + SESSION_TIMEOUT_SECS < t1) := Nat.not_lt.mpr hexp1
  have step1 : validate_session s uid t1 =
      (true, s.set uid { us with last_activity := some t1 }) := by
    simp [validate_session, hs, hla, hne1]
  have hlook : (s.set uid { us with last_activity := some t1 }) uid =
      some { us with last_activity := some t1 } := by simp [Sessions.set]
  have hne2 : ¬ (t1 + SESSION_TIMEOUT_SECS < t2) := Nat.not_lt.mpr hexp2
  have step2 : validate_session (s.set uid { us with last_activity := some t1 }) uid t2 =
      (true, (s.set uid { us with last_activity := some t1 }).set uid
        { us with last_activity := some t2 }) := by
    simp [validate_session, hlook, hne2]
  refine ⟨?_, ?_, ?_, ?_, h01, h12⟩
  · rw [step1]
  · rw [step1]; exact hlook
  · rw [step1]; simpa using congrArg Prod.fst step2
  · rw [step1]
    show (validate_session (s.set uid { us with last_activity := some t1 }) uid t2).2 uid = _
    rw [step2]
    simp [Sessions.set]

/-- C9 witness at a concrete store and concrete instants. -/
theorem c9_validate_session_witness :
    (validate_session (Sessions.empty.set "9" { last_activity := some 50 }) "9" 60).1 = true
    ∧ ((validate_session (Sessions.empty.set "9" { last_activity := some 50 }) "9" 60).2 "9" =
        some { last_activity := some 60 })
    ∧ (validate_session
        (validate_session (Sessions.empty.set "9" { last_activity := some 50 }) "9" 60).2 "9" 61).1 = true
    ∧ ((validate_session
        (validate_session (Sessions.empty.set "9" { last_activity := some 50 }) "9" 60).2 "9" 61).2 "9" =
        some { last_activity := some 61 })
    ∧ 50 ≤ 60 ∧ 60 ≤ 61 := by
  exact c9_validate_session_idempotent (Sessions.empty.set "9" { last_activity := some 50 })
    "9" { last_activity := some 50 } 50 60 61
    (by simp [Sessions.set]) rfl (by decide) (by decide) (by decide) (by decide)

/-! ### C8 -/

/-- C8: `load_sessions` yields an empty mapping when no store file exists;
on an undecodable store it yields an empty mapping and the original
content survives, renamed to a timestamped backup entry — it is never
deleted. -/
theorem c8_load_sessions_recovery (decode : String → Option Sessions) (now : Time)
    (fs : FileState) :
    (fs.main = none → load_sessions decode now fs = (Sessions.empty, fs))
    ∧ (∀ content, fs.main = some content → decode content = none →
        (load_sessions decode now fs).1 = Sessions.empty
        ∧ (load_sessions decode now fs).2.backups = (now, content) :: fs.backups
        ∧ (now, content) ∈ (load_sessions decode now fs).2.backups) := by
  constructor
  · intro h
    simp [load_sessions, h]
  · intro content hmain hdec
    simp [load_sessions, hmain, hdec]

/-- C8 witness: a concrete corrupt store is backed up, not deleted, and an
absent store loads as empty. -/
theorem c8_load_sessions_witness :
    (load_sessions (fun _ => none) 5 { main := none, backups := [] } =
      (Sessions.empty, { main := none, backups := [] }))
    ∧ ((load_sessions (fun _ => none) 5 { main := some "garbage", backups := [] }).1 =
        Sessions.empty
      ∧ (load_sessions (fun _ => none) 5 { main := some "garbage", backups := [] }).2.backups =
        [(5, "garbage")]
      ∧ (5, "garbage") ∈
        (load_sessions (fun _ => none) 5 { main := some "garbage", backups := [] }).2.backups) :=
  ⟨(c8_load_sessions_recovery (fun _ => none) 5 { main := none, backups := [] }).1 rfl,
   (c8_load_sessions_recovery (fun _ => none) 5 { main := some "garbage", backups := [] }).2
     "garbage" rfl rfl⟩

/-! ### Intent values and the deterministic fallback parsers

`parse_send_command_fallback` embeds the regex

  `(?i)(send|transfer|pay)\s+(?P<amount>[\d\.]\x7b1,20\x7d|\w+(?:\s+\w+)*)\s+(?:algo|algos)\s+to\s+(?P<address>[A-Z2-7]\x7b58\x7d)`

as an executable matcher over whitespace-tokenised input (`re.search`
anywhere-semantics = try every token start; an unanchored leading verb can
also match a token suffix; the first amount alternative must cover a whole
token because it is followed by `\s+`; the trailing address group may match
the first 58 characters of a longer token because the pattern is
unanchored at its end).  The spelled-out-number converter `text_to_number`
lives in the absent `utils.py` and is passed as an oracle. -/

/-- The dynamic payload of a resolved intent (Python dict with an `intent`
tag and a `parameters` mapping). -/
structure Parsed where
  intent : String := "unknown"
  amount : Option ℚ := none
  recipient : Option String := none
  name : Option String := none
  supply : Option Nat := none
  description : Option String := none
deriving DecidableEq, Repr

/-- Python `str.split()` (split on whitespace runs, no empty words). -/
def wordsAux : List Char → List Char → List (List Char)
  | [], acc => if acc.isEmpty then [] else [acc.reverse]
  | c :: cs, acc =>
    if pySpace c then
      if acc.isEmpty then wordsAux cs [] else acc.reverse :: wordsAux cs []
    else wordsAux cs (c :: acc)

/-- The whitespace-delimited tokens of a character list. -/
def pyWords (l : List Char) : List (List Char) := wordsAux l []

/-- `\w` (ASCII model of Python word characters). -/
def isWordChar (c : Char) : Bool := c.isAlphanum || c = '_'

/-- The `[\d\.]` character class. -/
def isAmtChar (c : Char) : Bool := c.isDigit || c = '.'

/-- `[A-Z2-7]` under `re.IGNORECASE`. -/
def isBase32CI (c : Char) : Bool := isBase32Upper c.toUpper

/-- Case-insensitive equality of a token with a literal. -/
def ciEqL (w : List Char) (s : String) : Bool :=
  decide (w.length = s.length) && ciStarts s.data w

/-- `pat` is a case-insensitive suffix of `w` (an unanchored leading
alternation group can start inside a token). -/
def ciEnds (pat w : List Char) : Bool := ciStarts pat.reverse w.reverse

/-- `(send|transfer|pay)`. -/
def sendVerbs : List (List Char) := ["send".toList, "transfer".toList, "pay".toList]

/-- `\s+(?:algo|algos)\s+to\s+[A-Z2-7]\x7b58\x7d` after the amount group:
three more tokens, the last contributing its first 58 base-32 characters. -/
def sendTail : List (List Char) → Option (List Char)
  | g :: t :: a :: _ =>
    if (ciEqL g "algo" || ciEqL g "algos") && ciEqL t "to"
        && decide (58 ≤ a.length) && (a.take 58).all isBase32CI then
      some (a.take 58)
    else none
  | _ => none

/-- First amount alternative `[\d\.]\x7b1,20\x7d`: a whole token of at most
20 digit-or-dot characters. -/
def sendAlt1 : List (List Char) → Option (List Char × List Char)
  | a :: rest =>
    if !a.isEmpty && a.all isAmtChar && decide (a.length ≤ 20) then
      (sendTail rest).map (fun addr => (a, addr))
    else none
  | [] => none

/-- Tokens re-joined with single spaces (the captured group's inner
whitespace, normalised). -/
def joinSpace : List (List Char) → List Char
  | [] => []
  | [w] => w
  | w :: ws => w ++ ' ' :: joinSpace ws

/-- Second amount alternative `\w+(?:\s+\w+)*` with greedy backtracking:
try the longest run of word-character tokens first, shrinking until the
tail matches. -/
def sendAlt2 (words : List (List Char)) : Nat → Option (List Char × List Char)
  | 0 => none
  | k + 1 =>
    let pre := words.take (k + 1)
    if decide (pre.length = k + 1)
        && pre.all (fun w => !w.isEmpty && w.all isWordChar) then
      match sendTail (words.drop (k + 1)) with
      | some addr => some (joinSpace pre, addr)
      | none => sendAlt2 words k
    else sendAlt2 words k

/-- `re.search` over token starts: at each start the verb may end a token,
then alternative 1 is tried before alternative 2 (regex alternation
order). -/
def sendSearch : List (List Char) → Option (List Char × List Char)
  | [] => none
  | w0 :: rest =>
    if sendVerbs.any (fun v => ciEnds v w0) then
      match sendAlt1 rest with
      | some r => some r
      | none =>
        match sendAlt2 rest rest.length with
        | some r => some r
        | none => sendSearch rest
    else sendSearch rest

/-- Decimal digit accumulator. -/
def digitsVal (l : List Char) : Nat := l.foldl (fun a c => a * 10 + (c.toNat - 48)) 0

/-- Python `float()` on the strings the amount group can produce (digits
and dots only; otherwise `ValueError`, modelled as `none`). -/
def parseFloatQ (l : List Char) : Option ℚ :=
  if !l.isEmpty && l.all Char.isDigit then some (digitsVal l)
  else
    let ip := l.takeWhile (fun c => c ≠ '.')
    let rest := l.drop (ip.length + 1)
    if decide (l.count '.' = 1) && ip.all Char.isDigit && rest.all Char.isDigit
        && (!ip.isEmpty || !rest.isEmpty) then
      some ((digitsVal ip : ℚ) + (digitsVal rest : ℚ) / ((10 : ℚ) ^ rest.length))
    else none

/-- `parse_send_command_fallback(text)`, with `text_to_number` (from the
absent `utils.py`) as an oracle parameter.  Sanitizes, searches for the
transfer pattern, re-sanitizes the captured groups, validates the address
(case-sensitively) and the bounded amount, and builds the `send_algo`
intent. -/
def parse_send_command_fallback (text_to_number : String → Option ℚ)
    (text : Option String) : Option Parsed :=
  let t := sanitize_input text
  if t = "" then none
  else
    match sendSearch (pyWords t.data) with
    | none => none
    | some (amt, addr) =>
      let amount_text := sanitize_input (some (String.mk amt))
      let address := sanitize_input (some (String.mk addr))
      if !validAddr address then none
      else
        match parseFloatQ amount_text.data with
        | some amount =>
          if amount ≤ 0 ∨ 1000000 < amount then none
          else some { intent := "send_algo", amount := some amount, recipient := some address }
        | none =>
          match text_to_number amount_text with
          | some amount =>
            if amount ≤ 0 ∨ 1000000 < amount then none
            else some { intent := "send_algo", amount := some amount, recipient := some address }
          | none => none

/-- `(create|mint|make)` of the NFT fallback patterns. -/
def nftVerbs : List (List Char) := ["create".toList, "mint".toList, "make".toList]

/-- The greedy `[a-zA-Z0-9\s]\x7b1,50\x7d` name class over tokens: the run
of alphanumeric tokens re-joined with single spaces. -/
def alnumRun : List (List Char) → List Char
  | [] => []
  | w :: ws =>
    if !w.isEmpty && w.all Char.isAlphanum then
      let r := alnumRun ws
      if r.isEmpty then w else w ++ ' ' :: r
    else []

/-- NFT patterns 1/2: `verb (a|an)? nft (with name|named|called)? <name>`,
name truncated to 50 characters by the bounded class. -/
def nftP1At : List (List Char) → Option (List Char)
  | [] => none
  | w0 :: rest =>
    if nftVerbs.any (fun v => ciEnds v w0) then
      let rest1 := match rest with
        | a :: rs => if ciEqL a "a" || ciEqL a "an" then rs else rest
        | [] => rest
      match rest1 with
      | n :: rest2 =>
        if ciEqL n "nft" then
          let rest3 := match rest2 with
            | x :: y :: rs =>
              if ciEqL x "with" && ciEqL y "name" then rs
              else if ciEqL x "named" || ciEqL x "called" then y :: rs
              else rest2
            | x :: rs => if ciEqL x "named" || ciEqL x "called" then rs else rest2
            | [] => rest2
          let nm := (alnumRun rest3).take 50
          if nm.isEmpty then none else some nm
        else none
      | [] => none
    else none

/-- NFT pattern 3 name: alphanumeric tokens up to a terminating `nft`
token. -/
def nftP3Name : List (List Char) → Option (List Char)
  | [] => none
  | w :: ws =>
    if ciEqL w "nft" then none
    else if !w.isEmpty && w.all Char.isAlphanum then
      match ws with
      | n :: _ =>
        if ciEqL n "nft" then some w
        else (nftP3Name ws).map (fun r => w ++ ' ' :: r)
      | [] => none
    else none

/-- NFT pattern 3: `verb <name> nft`. -/
def nftP3At : List (List Char) → Option (List Char)
  | [] => none
  | w0 :: rest =>
    if nftVerbs.any (fun v => ciEnds v w0) then
      (nftP3Name rest).bind (fun nm => if decide (nm.length ≤ 50) then some nm else none)
    else none

/-- `re.search` over token starts for an NFT pattern. -/
def nftSearch (f : List (List Char) → Option (List Char)) :
    List (List Char) → Option (List Char)
  | [] => none
  | w :: rest =>
    match f (w :: rest) with
    | some r => some r
    | none => nftSearch f rest

/-- The `name = sanitize_input(...); if name and len(name.strip()) > 0`
guard and result construction shared by all NFT patterns. -/
def nftResult (nmRaw : List Char) : Option Parsed :=
  let name := sanitize_input (some (String.mk nmRaw))
  let stripped := pyStrip name.data
  if name ≠ "" ∧ 0 < stripped.length then
    some { intent := "create_nft", name := some (String.mk stripped),
           supply := some 1, description := some "" }
  else none

/-- `parse_nft_command_fallback(text)`: the three NFT regexes in source
order, each searched anywhere, falling through on a failed name guard. -/
def parse_nft_command_fallback (text : Option String) : Option Parsed :=
  let t := sanitize_input text
  if t = "" then none
  else
    let ws := pyWords t.data
    let p3 := (nftSearch nftP3At ws).bind nftResult
    match nftSearch nftP1At ws with
    | some nm =>
      match nftResult nm with
      | some p => some p
      | none => p3
    | none => p3

/-! ### C6 -/

/-- A valid 58-character base-32 address (58 copies of `A`). -/
def addr58 : String := "AAAAAAAAAAAAAAAAAAAAAAAAAAAAAAAAAAAAAAAAAAAAAAAAAAAAAAAAAA"

/-- C6: with the language-understanding collaborator unavailable, the
fallback matcher resolves `"send 5 algo to <58-char-valid-address>"` to a
`send_algo` intent with amount `5` and that address as recipient; it
resolves `"send 5 algo to short"` to nothing — for every spelled-number
converter, which neither input consults. -/
theorem c6_send_fallback (text_to_number : String → Option ℚ) :
    parse_send_command_fallback text_to_number (some ("send 5 algo to " ++ addr58)) =
      some { intent := "send_algo", amount := some 5, recipient := some addr58 }
    ∧ parse_send_command_fallback text_to_number (some "send 5 algo to short") = none :=
  ⟨rfl, rfl⟩

/-! ### Conversation state machine and dispatch

`context.user_data` is the per-user conversation context; `clear()` resets
it to `UserData.init`.  External collaborators are oracles in `Env`:
`aiResult` is the language-understanding reply (`none` when the service is
unavailable or raises), `walletRes`/`connectRes` are the wallet
collaborator outcomes (`none` = exception), `sendBuild`/`nftBuild` are the
ledger build outcomes (`none` = exception, `some none` = immediate result,
`some (some h)` = `awaiting_approval` with unsigned-transaction handle
`h`), and `signOk pw` says whether signing with password `pw` (plus the
subsequent ledger submission) succeeds.  Each handler returns the new
context, the store, the reply, the collaborators invoked, and the handle
submitted to the ledger (if any). -/

/-- Which external collaborator a handler invoked. -/
inductive Collab
  | ai
  | walletSvc
  | ledgerSvc
deriving DecidableEq, Repr

/-- `context.user_data`: the per-user conversation context. -/
structure UserData where
  state : Option String := none
  failed_attempts : Nat := 0
  pending_txn : Option Nat := none
  transaction_type : Option String := none
  mnemonic : Option String := none
deriving DecidableEq, Repr

/-- `context.user_data.clear()` / the initial empty context. -/
def UserData.init : UserData := {}

/-- Result of `create_wallet` / `connect_wallet`. -/
structure WalletData where
  address : String := ""
  encrypted_mnemonic : String := ""
  mnemonic : String := ""
deriving DecidableEq, Repr

/-- The collaborator oracles for one message turn. -/
structure Env where
  now : Time := 0
  aiResult : Option Parsed := none
  walletRes : Option WalletData := none
  connectRes : Option WalletData := none
  sendBuild : Option (Option Nat) := none
  sendMsg : String := ""
  nftBuild : Option (Option Nat) := none
  nftMsg : String := ""
  signOk : String → Bool := fun _ => false
  txid : Nat := 0
  assetId : Nat := 0
  balance : Option Nat := none
  text_to_number : String → Option ℚ := fun _ => none

/-- Outcome of one handler: new context, new store, reply text, collaborator
calls made, and the unsigned-transaction handle submitted to the ledger. -/
structure HRes where
  data : UserData
  sessions : Sessions
  reply : String
  calls : List Collab := []
  submitted : Option Nat := none

/-- `handle_wallet_creation_password`: password-strength validation (length
at least 8, at least one ASCII letter, at least one digit), then the
`create_wallet` collaborator call, session creation and context clear; on a
collaborator exception the context is also cleared.  Validation failures
return with the context and store untouched. -/
def handle_wallet_creation_password (env : Env) (uid : String) (sessions : Sessions)
    (password : String) (d : UserData) : HRes :=
  if password.length < 8 then
    { data := d, sessions := sessions,
      reply := "❌ Password must be at least 8 characters long." }
  else if !(password.data.any (fun c => c.isAlpha)) || !(password.data.any (fun c => c.isDigit)) then
    { data := d, sessions := sessions,
      reply := "❌ Password must contain both letters and numbers." }
  else
    match env.walletRes with
    | none =>
      { data := UserData.init, sessions := sessions,
        reply := "❌ Failed to create wallet. Please try again.",
        calls := [Collab.walletSvc] }
    | some wd =>
      { data := UserData.init,
        sessions := sessions.set uid
          { address := wd.address, encrypted_mnemonic := wd.encrypted_mnemonic,
            created_at := some env.now, last_activity := some env.now },
        reply := "✅ Wallet created successfully!",
        calls := [Collab.walletSvc] }

/-- `handle_mnemonic_input`: exactly 25 whitespace-separated words are
required; on success the mnemonic is stashed and the state advances to
`connecting_password`. -/
def handle_mnemonic_input (sessions : Sessions) (mnemonic : String) (d : UserData) : HRes :=
  if (pyWords mnemonic.data).length ≠ 25 then
    { data := d, sessions := sessions,
      reply := "❌ Invalid mnemonic. Must be exactly 25 words." }
  else
    { data := { d with mnemonic := some mnemonic, state := some "connecting_password" },
      sessions := sessions,
      reply := "🔒 Please set a password to secure this wallet:" }

/-- `handle_connection_password`: calls `connect_wallet` with the stashed
mnemonic; success creates the session; any failure (including a missing
mnemonic, which makes `connect_wallet` raise) reports an error; both
branches clear the context. -/
def handle_connection_password (env : Env) (uid : String) (sessions : Sessions)
    (password : String) (d : UserData) : HRes :=
  match d.mnemonic, env.connectRes with
  | some _, some wd =>
    { data := UserData.init,
      sessions := sessions.set uid
        { address := wd.address, encrypted_mnemonic := wd.encrypted_mnemonic,
          created_at := some env.now, last_activity := some env.now },
      reply := "✅ **Wallet Connected Successfully!**",
      calls := [Collab.walletSvc] }
  | _, _ =>
    { data := UserData.init, sessions := sessions,
      reply := "❌ Failed to connect wallet. Please check your mnemonic and try again.",
      calls := [Collab.walletSvc] }

/-- `handle_transaction_password`: a missing pending transaction resets;
a successful sign-and-submit reports the transaction (or, for the `nft`
kind, the confirmed asset) and clears; a failure increments
`failed_attempts`, clearing with a terminal message at the cap and
otherwise reporting the remaining attempts. -/
def handle_transaction_password (env : Env) (uid : String) (sessions : Sessions)
    (password : String) (d : UserData) : HRes :=
  match d.pending_txn with
  | none =>
    { data := UserData.init, sessions := sessions,
      reply := "❌ No pending transaction found." }
  | some pending =>
    if env.signOk password then
      if d.transaction_type.getD "send" = "nft" then
        { data := UserData.init, sessions := sessions,
          reply := "✅ **NFT Created Successfully!** Asset ID: " ++ toString env.assetId
            ++ " TxID: " ++ toString env.txid,
          calls := [Collab.walletSvc, Collab.ledgerSvc], submitted := some pending }
      else
        { data := UserData.init, sessions := sessions,
          reply := "✅ **Transaction Successful!** Transaction ID: " ++ toString env.txid,
          calls := [Collab.walletSvc, Collab.ledgerSvc], submitted := some pending }
    else
      let fa := d.failed_attempts + 1
      if MAX_PASSWORD_ATTEMPTS ≤ fa then
        { data := UserData.init, sessions := sessions,
          reply := "❌ Too many failed password attempts. Transaction cancelled.",
          calls := [Collab.walletSvc] }
      else
        { data := { d with failed_attempts := fa }, sessions := sessions,
          reply := "❌ Incorrect password. " ++ toString (MAX_PASSWORD_ATTEMPTS - fa)
            ++ " attempts remaining.",
          calls := [Collab.walletSvc] }

/-- `handle_send_transaction`: session check, transaction rate limit,
parameter presence, address and amount validation, then the ledger build
call; an `awaiting_approval` build stores the unsigned handle and the
`send` kind and enters `transaction_password`. -/
def handle_send_transaction (env : Env) (uid : String) (sessions : Sessions)
    (params : Parsed) (d : UserData) : HRes :=
  let v := validate_session sessions uid env.now
  if !v.1 then
    { data := d, sessions := v.2, reply := "❌ Please connect a wallet first!" }
  else
    let r := check_user_rate_limit v.2 uid "transaction" env.now
    if !r.1 then
      { data := d, sessions := r.2,
        reply := "⏱️ Transaction rate limit exceeded. Please wait before sending another transaction." }
    else if params.amount.isNone || params.recipient.isNone then
      { data := d, sessions := r.2,
        reply := "❌ Missing transaction details. Example: Send 5 ALGO to address" }
    else if !validAddr (params.recipient.getD "") then
      { data := d, sessions := r.2, reply := "❌ Invalid recipient address format." }
    else if params.amount.getD 0 ≤ 0 ∨ 1000000 < params.amount.getD 0 then
      { data := d, sessions := r.2,
        reply := "❌ Invalid amount. Must be between 0 and 1,000,000 ALGO." }
    else
      match env.sendBuild with
      | none =>
        { data := d, sessions := r.2,
          reply := "❌ Transaction failed. Please check your balance and try again.",
          calls := [Collab.ledgerSvc] }
      | some none =>
        { data := d, sessions := r.2, reply := "✅ " ++ env.sendMsg,
          calls := [Collab.ledgerSvc] }
      | some (some h) =>
        { data := { d with
                      pending_txn := some h,
                      state := some "transaction_password",
                      transaction_type := some "send" },
          sessions := r.2,
          reply := "📝 **Transaction Confirmation Required** Enter your wallet password to confirm:",
          calls := [Collab.ledgerSvc] }

/-- `handle_nft_creation`: session check, name presence and 1-50 character
validation, then the ledger build call; an `awaiting_approval` build stores
the unsigned handle and the `nft` kind and enters `transaction_password`. -/
def handle_nft_creation (env : Env) (uid : String) (sessions : Sessions)
    (params : Parsed) (d : UserData) : HRes :=
  let v := validate_session sessions uid env.now
  if !v.1 then
    { data := d, sessions := v.2, reply := "❌ Please connect a wallet first!" }
  else if params.name.getD "" = "" then
    { data := d, sessions := v.2,
      reply := "❌ Missing NFT name. Example: Create NFT named Dragon" }
  else
    let nft_name := sanitize_input params.name
    if nft_name = "" ∨ nft_name.length < 1 ∨ 50 < nft_name.length then
      { data := d, sessions := v.2, reply := "❌ NFT name must be 1-50 characters long." }
    else
      match env.nftBuild with
      | none =>
        { data := d, sessions := v.2,
          reply := "❌ Failed to create NFT. Please try again.",
          calls := [Collab.ledgerSvc] }
      | some none =>
        { data := d, sessions := v.2, reply := "✅ NFT created! Asset ID: " ++ env.nftMsg,
          calls := [Collab.ledgerSvc] }
      | some (some h) =>
        { data := { d with
                      pending_txn := some h,
                      state := some "transaction_password",
                      transaction_type := some "nft" },
          sessions := v.2,
          reply := "🎨 **NFT Creation Confirmation** Enter your wallet password to create this NFT:",
          calls := [Collab.ledgerSvc] }

/-- `handle_balance_check`: session check, then the ledger `account_info`
call; the context is untouched in every branch. -/
def handle_balance_check (env : Env) (uid : String) (sessions : Sessions)
    (d : UserData) : HRes :=
  let v := validate_session sessions uid env.now
  if !v.1 then
    { data := d, sessions := v.2, reply := "❌ Please connect a wallet first!" }
  else
    match env.balance with
    | some amt =>
      { data := d, sessions := v.2,
        reply := "💰 **Wallet Balance**: " ++ toString amt ++ " microALGO",
        calls := [Collab.ledgerSvc] }
    | none =>
      { data := d, sessions := v.2,
        reply := "❌ Failed to check balance. Please try again.",
        calls := [Collab.ledgerSvc] }

/-- `handle_disconnect`: removes the session if present and clears the
context. -/
def handle_disconnect (uid : String) (sessions : Sessions) (d : UserData) : HRes :=
  let s2 := if (sessions uid).isSome then sessions.erase uid else sessions
  { data := UserData.init, sessions := s2, reply := "✅ Wallet disconnected securely" }

/-- `handle_conversation_state`: re-sanitizes, rejects empty input, enforces
the attempt cap (forced reset with everything cleared), then routes the raw
text to the current state's handler; any unrecognized state value forces a
reset. -/
def handle_conversation_state (env : Env) (uid : String) (sessions : Sessions)
    (text : String) (d : UserData) : HRes :=
  let message_text := sanitize_input (some text)
  if message_text = "" then
    { data := d, sessions := sessions, reply := "❌ Invalid input received." }
  else if MAX_PASSWORD_ATTEMPTS ≤ d.failed_attempts then
    { data := UserData.init, sessions := sessions,
      reply := "❌ Too many failed attempts. Please start over." }
  else
    match d.state with
    | some "creating_wallet" => handle_wallet_creation_password env uid sessions message_text d
    | some "connecting_wallet" => handle_mnemonic_input sessions message_text d
    | some "connecting_password" => handle_connection_password env uid sessions message_text d
    | some "transaction_password" => handle_transaction_password env uid sessions message_text d
    | _ =>
      { data := UserData.init, sessions := sessions,
        reply := "❌ Invalid state. Please start over." }

/-- `handle_message`: sanitize, general rate gate, mid-flow routing to the
state machine, then intent resolution (the language-understanding
collaborator is always consulted first — recorded as a `Collab.ai` call —
with the two deterministic fallbacks after it) and dispatch. -/
def handle_message (env : Env) (uid : String) (sessions : Sessions)
    (text : String) (d : UserData) : HRes :=
  let user_input := sanitize_input (some text)
  if user_input = "" then
    { data := d, sessions := sessions, reply := "❌ Invalid input received." }
  else
    let g := check_user_rate_limit sessions uid "general" env.now
    if !g.1 then
      { data := d, sessions := g.2,
        reply := "⏱️ You\x27re sending requests too quickly. Please wait a moment and try again." }
    else if d.state.isSome then
      handle_conversation_state env uid g.2 text d
    else
      let parsed : Option Parsed :=
        if env.aiResult.isNone || (env.aiResult.getD {}).intent = "unknown" then
          match parse_nft_command_fallback (some user_input) with
          | some p => some p
          | none => parse_send_command_fallback env.text_to_number (some user_input)
        else env.aiResult
      let res : HRes :=
        match parsed with
        | none =>
          { data := d, sessions := g.2,
            reply := "❌ I didn\x27t understand that command." }
        | some p =>
          if p.intent = "create_wallet" then
            { data := { d with state := some "creating_wallet" }, sessions := g.2,
              reply := "🔒 Creating a new wallet... Please set a secure password (minimum 8 characters):" }
          else if p.intent = "connect_wallet" then
            { data := { d with state := some "connecting_wallet" }, sessions := g.2,
              reply := "🔑 Connecting to existing wallet... Please enter your 25-word mnemonic phrase:" }
          else if p.intent = "send_algo" then handle_send_transaction env uid g.2 p d
          else if p.intent = "create_nft" then handle_nft_creation env uid g.2 p d
          else if p.intent = "disconnect" then handle_disconnect uid g.2 d
          else if p.intent = "balance" then handle_balance_check env uid g.2 d
          else { data := d, sessions := g.2, reply := "❌ Unsupported action" }
      { res with calls := Collab.ai :: res.calls }

/-! ### Routing and transaction-password lemmas -/

theorem hcs_route_creating (env : Env) (uid : String) (s : Sessions) (t : String)
    (d : UserData) (hst : d.state = some "creating_wallet")
    (hnz : sanitize_input (some t) ≠ "")
    (hfa : d.failed_attempts < MAX_PASSWORD_ATTEMPTS) :
    handle_conversation_state env uid s t d =
      handle_wallet_creation_password env uid s (sanitize_input (some t)) d := by
  unfold handle_conversation_state
  rw [hst]
  simp [hnz, Nat.not_le.mpr hfa]

theorem hcs_route_connecting (env : Env) (uid : String) (s : Sessions) (t : String)
    (d : UserData) (hst : d.state = some "connecting_wallet")
    (hnz : sanitize_input (some t) ≠ "")
    (hfa : d.failed_attempts < MAX_PASSWORD_ATTEMPTS) :
    handle_conversation_state env uid s t d =
      handle_mnemonic_input s (sanitize_input (some t)) d := by
  unfold handle_conversation_state
  rw [hst]
  simp [hnz, Nat.not_le.mpr hfa]

theorem hcs_route_tp (env : Env) (uid : String) (s : Sessions) (t : String)
    (d : UserData) (hst : d.state = some "transaction_password")
    (hnz : sanitize_input (some t) ≠ "")
    (hfa : d.failed_attempts < MAX_PASSWORD_ATTEMPTS) :
    handle_conversation_state env uid s t d =
      handle_transaction_password env uid s (sanitize_input (some t)) d := by
  unfold handle_conversation_state
  rw [hst]
  simp [hnz, Nat.not_le.mpr hfa]

theorem htp_wrong (env : Env) (uid : String) (s : Sessions) (pw : String)
    (d : UserData) (h : Nat) (hp : d.pending_txn = some h)
    (hw : env.signOk pw = false)
    (hlt : d.failed_attempts + 1 < MAX_PASSWORD_ATTEMPTS) :
    handle_transaction_password env uid s pw d =
      { data := { d with failed_attempts := d.failed_attempts + 1 }, sessions := s,
        reply := "❌ Incorrect password. "
          ++ toString (MAX_PASSWORD_ATTEMPTS - (d.failed_attempts + 1))
          ++ " attempts remaining.",
        calls := [Collab.walletSvc] } := by
  unfold handle_transaction_password
  rw [hp]
  simp [hw, Nat.not_le.mpr hlt]

theorem htp_wrong_cap (env : Env) (uid : String) (s : Sessions) (pw : String)
    (d : UserData) (h : Nat) (hp : d.pending_txn = some h)
    (hw : env.signOk pw = false)
    (hge : MAX_PASSWORD_ATTEMPTS ≤ d.failed_attempts + 1) :
    handle_transaction_password env uid s pw d =
      { data := UserData.init, sessions := s,
        reply := "❌ Too many failed password attempts. Transaction cancelled.",
        calls := [Collab.walletSvc] } := by
  unfold handle_transaction_password
  rw [hp]
  simp [hw, hge]

theorem htp_right (env : Env) (uid : String) (s : Sessions) (pw : String)
    (d : UserData) (h : Nat) (hp : d.pending_txn = some h)
    (hok : env.signOk pw = true) :
    (handle_transaction_password env uid s pw d).data = UserData.init
    ∧ (handle_transaction_password env uid s pw d).submitted = some h := by
  unfold handle_transaction_password
  rw [hp]
  by_cases hk : d.transaction_type.getD "send" = "nft" <;> simp [hok, hk]

/-! ### C1 -/

/-- C1: from `transaction_password` with a pending unsigned transaction and
no prior failures, three consecutive wrong-password attempts reset the
context to `UserData.init` (idle, `pending_txn` gone, zero
`failed_attempts`); a correct password on the first or the second attempt
submits the pending handle and resets to `UserData.init` with zero
residual `failed_attempts`. -/
theorem c1_transaction_password_protocol
    (env1 env2 env3 : Env) (uid : String) (s1 s2 s3 : Sessions) (t1 t2 t3 : String)
    (d0 : UserData) (h : Nat)
    (hst : d0.state = some "transaction_password")
    (hpend : d0.pending_txn = some h)
    (hfa : d0.failed_attempts = 0)
    (hz1 : sanitize_input (some t1) ≠ "") (hz2 : sanitize_input (some t2) ≠ "")
    (hz3 : sanitize_input (some t3) ≠ "")
    (hw1 : env1.signOk (sanitize_input (some t1)) = false)
    (hw2 : env2.signOk (sanitize_input (some t2)) = false)
    (hw3 : env3.signOk (sanitize_input (some t3)) = false) :
    (handle_conversation_state env3 uid s3 t3
      (handle_conversation_state env2 uid s2 t2
        (handle_conversation_state env1 uid s1 t1 d0).data).data).data = UserData.init
    ∧ (∀ (env : Env) (s : Sessions) (t : String),
        sanitize_input (some t) ≠ "" → env.signOk (sanitize_input (some t)) = true →
        (handle_conversation_state env uid s t d0).data = UserData.init
        ∧ (handle_conversation_state env uid s t d0).submitted = some h)
    ∧ (∀ (env : Env) (s : Sessions) (t : String),
        sanitize_input (some t) ≠ "" → env.signOk (sanitize_input (some t)) = true →
        (handle_conversation_state env uid s t
          (handle_conversation_state env1 uid s1 t1 d0).data).data = UserData.init
        ∧ (handle_conversation_state env uid s t
          (handle_conversation_state env1 uid s1 t1 d0).data).submitted = some h)
    ∧ UserData.init.state = none ∧ UserData.init.failed_attempts = 0
    ∧ UserData.init.pending_txn = none := by
  have hfa0 : d0.failed_attempts < MAX_PASSWORD_ATTEMPTS := by
    rw [hfa]; decide
  have e1 : (handle_conversation_state env1 uid s1 t1 d0).data =
      { d0 with failed_attempts := 1 } := by
    rw [hcs_route_tp env1 uid s1 t1 d0 hst hz1 hfa0,
        htp_wrong env1 uid s1 (sanitize_input (some t1)) d0 h hpend hw1 (by rw [hfa]; decide)]
    rw [hfa]
  have d1st : ({ d0 with failed_attempts := 1 } : UserData).state =
      some "transaction_password" := hst
  have d1p : ({ d0 with failed_attempts := 1 } : UserData).pending_txn = some h := hpend
  have e2 : (handle_conversation_state env2 uid s2 t2
      (handle_conversation_state env1 uid s1 t1 d0).data).data =
      { d0 with failed_attempts := 2 } := by
    rw [e1, hcs_route_tp env2 uid s2 t2 _ d1st hz2
          (by show (1:Nat) < MAX_PASSWORD_ATTEMPTS; decide),
        htp_wrong env2 uid s2 (sanitize_input (some t2)) _ h d1p hw2
          (by show (1:Nat) + 1 < MAX_PASSWORD_ATTEMPTS; decide)]
  have d2st : ({ d0 with failed_attempts := 2 } : UserData).state =
      some "transaction_password" := hst
  have d2p : ({ d0 with failed_attempts := 2 } : UserData).pending_txn = some h := hpend
  refine ⟨?_, ?_, ?_, rfl, rfl, rfl⟩
  · rw [e2, hcs_route_tp env3 uid s3 t3 _ d2st hz3
          (by show (2:Nat) < MAX_PASSWORD_ATTEMPTS; decide),
        htp_wrong_cap env3 uid s3 (sanitize_input (some t3)) _ h d2p hw3
          (by show MAX_PASSWORD_ATTEMPTS ≤ (2:Nat) + 1; decide)]
  · intro env s t hz hok
    rw [hcs_route_tp env uid s t d0 hst hz hfa0]
    exact htp_right env uid s (sanitize_input (some t)) d0 h hpend hok
  · intro env s t hz hok
    rw [e1, hcs_route_tp env uid s t _ d1st hz
          (by show (1:Nat) < MAX_PASSWORD_ATTEMPTS; decide)]
    exact htp_right env uid s (sanitize_input (some t)) _ h d1p hok

/-- C1 witness: the protocol at a concrete context, wrong-password oracle
and three concrete attempts, plus a correct-password oracle. -/
theorem c1_transaction_password_witness :
    ((handle_conversation_state { signOk := fun _ => false } "u" Sessions.empty "pw3"
      (handle_conversation_state { signOk := fun _ => false } "u" Sessions.empty "pw2"
        (handle_conversation_state { signOk := fun _ => false } "u" Sessions.empty "pw1"
          { state := some "transaction_password", pending_txn := some 7 }).data).data).data =
      UserData.init)
    ∧ (∀ (env : Env) (s : Sessions) (t : String),
        sanitize_input (some t) ≠ "" → env.signOk (sanitize_input (some t)) = true →
        (handle_conversation_state env "u" s t
          { state := some "transaction_password", pending_txn := some 7 }).data = UserData.init
        ∧ (handle_conversation_state env "u" s t
          { state := some "transaction_password", pending_txn := some 7 }).submitted = some 7)
    ∧ (∀ (env : Env) (s : Sessions) (t : String),
        sanitize_input (some t) ≠ "" → env.signOk (sanitize_input (some t)) = true →
        (handle_conversation_state env "u" s t
          (handle_conversation_state { signOk := fun _ => false } "u" Sessions.empty "pw1"
            { state := some "transaction_password", pending_txn := some 7 }).data).data =
          UserData.init
        ∧ (handle_conversation_state env "u" s t
          (handle_conversation_state { signOk := fun _ => false } "u" Sessions.empty "pw1"
            { state := some "transaction_password", pending_txn := some 7 }).data).submitted =
          some 7)
    ∧ UserData.init.state = none ∧ UserData.init.failed_attempts = 0
    ∧ UserData.init.pending_txn = none :=
  c1_transaction_password_protocol
    { signOk := fun _ => false } { signOk := fun _ => false } { signOk := fun _ => false }
    "u" Sessions.empty Sessions.empty Sessions.empty "pw1" "pw2" "pw3"
    { state := some "transaction_password", pending_txn := some 7 } 7
    rfl rfl rfl (by decide) (by decide) (by decide) rfl rfl rfl

/-! ### C3 -/

/-- C3 counterexample: in `creating_wallet`, the too-short password
`"short"` is rejected but `failed_attempts` stays `0` — it is not
incremented by one as the claim demands. -/
theorem c3_counterexample :
    (handle_conversation_state {} "u" Sessions.empty "short"
      { state := some "creating_wallet" }).data.failed_attempts ≠
      ({ state := some "creating_wallet" } : UserData).failed_attempts + 1 := by
  decide

/-- C3 amended: a validation failure leaves the machine in the same state
with error feedback in all three non-idle input states, but only
`transaction_password` (wrong password) increments `failed_attempts` by
one; `creating_wallet` (weak password) and `connecting_wallet` (mnemonic
not 25 words) leave `failed_attempts` unchanged. -/
theorem c3_amended_validation_failure (env : Env) (uid : String) (s : Sessions)
    (t : String) (d : UserData)
    (hfa : d.failed_attempts < MAX_PASSWORD_ATTEMPTS)
    (hnz : sanitize_input (some t) ≠ "") :
    (d.state = some "creating_wallet" →
      ((sanitize_input (some t)).length < 8
        ∨ (sanitize_input (some t)).data.any (fun c => c.isAlpha) = false
        ∨ (sanitize_input (some t)).data.any (fun c => c.isDigit) = false) →
      (handle_conversation_state env uid s t d).data = d
      ∧ ((handle_conversation_state env uid s t d).reply =
            "❌ Password must be at least 8 characters long."
         ∨ (handle_conversation_state env uid s t d).reply =
            "❌ Password must contain both letters and numbers."))
    ∧ (d.state = some "connecting_wallet" →
      (pyWords (sanitize_input (some t)).data).length ≠ 25 →
      (handle_conversation_state env uid s t d).data = d
      ∧ (handle_conversation_state env uid s t d).reply =
          "❌ Invalid mnemonic. Must be exactly 25 words.")
    ∧ (∀ h : Nat, d.state = some "transaction_password" →
      d.pending_txn = some h →
      env.signOk (sanitize_input (some t)) = false →
      d.failed_attempts + 1 < MAX_PASSWORD_ATTEMPTS →
      (handle_conversation_state env uid s t d).data =
        { d with failed_attempts := d.failed_attempts + 1 }
      ∧ (handle_conversation_state env uid s t d).data.state = d.state
      ∧ (handle_conversation_state env uid s t d).reply =
          "❌ Incorrect password. "
            ++ toString (MAX_PASSWORD_ATTEMPTS - (d.failed_attempts + 1))
            ++ " attempts remaining.") := by
  refine ⟨?_, ?_, ?_⟩
  · intro hst hbad
    rw [hcs_route_creating env uid s t d hst hnz hfa]
    unfold handle_wallet_creation_password
    rcases hbad with hlen | hA | hD
    · simp [hlen]
    · by_cases hlen : (sanitize_input (some t)).length < 8
      · simp [hlen]
      · simp [hlen, hA]
    · by_cases hlen : (sanitize_input (some t)).length < 8
      · simp [hlen]
      · by_cases hA : (sanitize_input (some t)).data.any (fun c => c.isAlpha)
        · simp [hlen, hA, hD]
        · simp [hlen, hA]
  · intro hst hwords
    rw [hcs_route_connecting env uid s t d hst hnz hfa]
    unfold handle_mnemonic_input
    simp [hwords]
  · intro h hst hp hw hlt
    rw [hcs_route_tp env uid s t d hst hnz hfa,
        htp_wrong env uid s (sanitize_input (some t)) d h hp hw hlt]
    exact ⟨rfl, rfl, rfl⟩

/-- C3 amended witness: the three failure shapes at concrete inputs. -/
theorem c3_amended_validation_witness :
    ((handle_conversation_state {} "u" Sessions.empty "short"
        { state := some "creating_wallet" }).data =
        { state := some "creating_wallet" }
      ∧ ((handle_conversation_state {} "u" Sessions.empty "short"
            { state := some "creating_wallet" }).reply =
            "❌ Password must be at least 8 characters long."
        ∨ (handle_conversation_state {} "u" Sessions.empty "short"
            { state := some "creating_wallet" }).reply =
            "❌ Password must contain both letters and numbers."))
    ∧ ((handle_conversation_state {} "u" Sessions.empty "only three words"
        { state := some "connecting_wallet" }).data =
        { state := some "connecting_wallet" }
      ∧ (handle_conversation_state {} "u" Sessions.empty "only three words"
          { state := some "connecting_wallet" }).reply =
          "❌ Invalid mnemonic. Must be exactly 25 words.")
    ∧ ((handle_conversation_state {} "u" Sessions.empty "badpw"
        { state := some "transaction_password", pending_txn := some 3 }).data =
        { state := some "transaction_password", pending_txn := some 3,
          failed_attempts := 1 }
      ∧ (handle_conversation_state {} "u" Sessions.empty "badpw"
          { state := some "transaction_password", pending_txn := some 3 }).data.state =
          some "transaction_password") := by
  refine ⟨?_, ?_, ?_⟩
  · exact (c3_amended_validation_failure {} "u" Sessions.empty "short"
      { state := some "creating_wallet" } (by decide) (by decide)).1 rfl (Or.inl (by decide))
  · exact (c3_amended_validation_failure {} "u" Sessions.empty "only three words"
      { state := some "connecting_wallet" } (by decide) (by decide)).2.1 rfl (by decide)
  · have k := (c3_amended_validation_failure {} "u" Sessions.empty "badpw"
      { state := some "transaction_password", pending_txn := some 3 }
      (by decide) (by decide)).2.2 3 rfl rfl rfl (by decide)
    exact ⟨k.1, k.2.1⟩

/-! ### C10 -/

/-- C10: in `creating_wallet`, a password shorter than 8 characters, or
with no letter, or with no digit, is rejected with an error reply, with no
`create_wallet` collaborator call, no session change, and the context (and
so the state) untouched; the collaborator call happens exactly when all
three conditions hold. -/
theorem c10_password_policy (env : Env) (uid : String) (s : Sessions)
    (password : String) (d : UserData) :
    (Collab.walletSvc ∈ (handle_wallet_creation_password env uid s password d).calls
      ↔ (8 ≤ password.length ∧ password.data.any (fun c => c.isAlpha) = true
          ∧ password.data.any (fun c => c.isDigit) = true))
    ∧ ((password.length < 8 ∨ password.data.any (fun c => c.isAlpha) = false
        ∨ password.data.any (fun c => c.isDigit) = false) →
      (handle_wallet_creation_password env uid s password d).data = d
      ∧ (handle_wallet_creation_password env uid s password d).sessions = s
      ∧ (handle_wallet_creation_password env uid s password d).calls = []
      ∧ ((handle_wallet_creation_password env uid s password d).reply =
            "❌ Password must be at least 8 characters long."
        ∨ (handle_wallet_creation_password env uid s password d).reply =
            "❌ Password must contain both letters and numbers.")) := by
  unfold handle_wallet_creation_password
  by_cases hlen : password.length < 8
  · constructor
    · simp [hlen]
    · intro _
      simp [hlen]
  · have hge : 8 ≤ password.length := by omega
    by_cases hA : password.data.any (fun c => c.isAlpha)
    · by_cases hD : password.data.any (fun c => c.isDigit)
      · constructor
        · cases hw : env.walletRes <;> simp [hlen, hA, hD, hw, hge]
        · intro hbad
          rcases hbad with hl | ha | hd
          · omega
          · rw [hA] at ha; exact absurd ha (by decide)
          · rw [hD] at hd; exact absurd hd (by decide)
      · constructor
        · simp [hlen, hA, hD]
        · intro _
          simp [hlen, hA, hD]
    · constructor
      · simp [hlen, hA]
      · intro _
        simp [hlen, hA]

/-- C10 witness: weak passwords at the concrete boundary cases and a
strong password that triggers the collaborator call. -/
theorem c10_password_policy_witness :
    (Collab.walletSvc ∈ (handle_wallet_creation_password {} "u" Sessions.empty
        "abcdefg1" UserData.init).calls
      ↔ (8 ≤ ("abcdefg1" : String).length
          ∧ ("abcdefg1" : String).data.any (fun c => c.isAlpha) = true
          ∧ ("abcdefg1" : String).data.any (fun c => c.isDigit) = true))
    ∧ ((handle_wallet_creation_password {} "u" Sessions.empty "abcdefgh" UserData.init).data =
        UserData.init
      ∧ (handle_wallet_creation_password {} "u" Sessions.empty "abcdefgh" UserData.init).sessions =
        Sessions.empty
      ∧ (handle_wallet_creation_password {} "u" Sessions.empty "abcdefgh" UserData.init).calls = []
      ∧ ((handle_wallet_creation_password {} "u" Sessions.empty "abcdefgh" UserData.init).reply =
            "❌ Password must be at least 8 characters long."
        ∨ (handle_wallet_creation_password {} "u" Sessions.empty "abcdefgh" UserData.init).reply =
            "❌ Password must contain both letters and numbers.")) :=
  ⟨(c10_password_policy {} "u" Sessions.empty "abcdefg1" UserData.init).1,
   (c10_password_policy {} "u" Sessions.empty "abcdefgh" UserData.init).2
     (Or.inr (Or.inr (by decide)))⟩

/-! ### C5 -/

/-- C5 counterexample: a sessionless user sending `"check my balance"`
(resolved to the `balance` intent by the language-understanding service)
does trigger a language-understanding collaborator invocation — the claim
that no collaborator at all is invoked is false. -/
theorem c5_counterexample :
    Collab.ai ∈ (handle_message { aiResult := some { intent := "balance" } } "42"
      Sessions.empty "check my balance" UserData.init).calls := by
  decide

/-- C5 amended: a sessionless user sending a message the
language-understanding collaborator resolves to the `balance` intent gets
the connect-a-wallet-first reply, and no wallet or ledger collaborator is
invoked; the language-understanding collaborator, however, is consulted
once during intent resolution. -/
theorem c5_amended_balance_no_session (env : Env) (uid t : String) (s : Sessions)
    (p : Parsed)
    (hai : env.aiResult = some p) (hbal : p.intent = "balance")
    (hns : s uid = none)
    (hnz : sanitize_input (some t) ≠ "") :
    (handle_message env uid s t UserData.init).reply = "❌ Please connect a wallet first!"
    ∧ Collab.walletSvc ∉ (handle_message env uid s t UserData.init).calls
    ∧ Collab.ledgerSvc ∉ (handle_message env uid s t UserData.init).calls
    ∧ Collab.ai ∈ (handle_message env uid s t UserData.init).calls := by
  have hrate : check_user_rate_limit s uid "general" env.now = (true, s) := by
    unfold check_user_rate_limit
    rw [hns]
  have hval : validate_session s uid env.now = (false, s) := by
    unfold validate_session
    rw [hns]
  have hbc : handle_balance_check env uid s UserData.init =
      { data := UserData.init, sessions := s, reply := "❌ Please connect a wallet first!" } := by
    unfold handle_balance_check
    rw [hval]
    simp
  have hinit : (UserData.init.state.isSome : Bool) = false := rfl
  unfold handle_message
  rw [if_neg hnz, hrate]
  simp [hai, hbal, hbc, hinit]

/-- C5 amended witness: the concrete sessionless balance request. -/
theorem c5_amended_balance_witness :
    (handle_message { aiResult := some { intent := "balance" } } "42" Sessions.empty
      "check my balance" UserData.init).reply = "❌ Please connect a wallet first!"
    ∧ Collab.walletSvc ∉ (handle_message { aiResult := some { intent := "balance" } } "42"
      Sessions.empty "check my balance" UserData.init).calls
    ∧ Collab.ledgerSvc ∉ (handle_message { aiResult := some { intent := "balance" } } "42"
      Sessions.empty "check my balance" UserData.init).calls
    ∧ Collab.ai ∈ (handle_message { aiResult := some { intent := "balance" } } "42"
      Sessions.empty "check my balance" UserData.init).calls :=
  c5_amended_balance_no_session { aiResult := some { intent := "balance" } } "42"
    "check my balance" Sessions.empty { intent := "balance" } rfl rfl rfl (by decide)

/-! ### C2: the pending-transaction/state invariant over reachable contexts -/

/-- The C2 invariant: the pending unsigned-transaction handle is present
iff the context is in the password-confirmation state. -/
def PendingInv (d : UserData) : Prop :=
  d.pending_txn.isSome = true ↔ d.state = some "transaction_password"

/-- One message-handling step of the per-user machine, for arbitrary
collaborator outcomes, user identity, store contents and message text. -/
def Step (d d2 : UserData) : Prop :=
  ∃ (env : Env) (uid : String) (sessions : Sessions) (text : String),
    d2 = (handle_message env uid sessions text d).data

/-- The contexts reachable from the initial (cleared) context. -/
def Reachable : UserData → Prop :=
  Relation.ReflTransGen Step UserData.init

theorem pendingInv_init : PendingInv UserData.init := by
  simp [PendingInv, UserData.init]

theorem rate_general_true (s : Sessions) (uid : String) (now : Time) :
    (check_user_rate_limit s uid "general" now).1 = true := by
  unfold check_user_rate_limit
  cases s uid <;> simp

theorem pendingInv_hwcp (env : Env) (uid : String) (s : Sessions) (pw : String)
    (d : UserData) (hInv : PendingInv d) :
    PendingInv (handle_wallet_creation_password env uid s pw d).data := by
  simp only [handle_wallet_creation_password]
  split
  · exact hInv
  · split
    · exact hInv
    · cases env.walletRes <;> exact pendingInv_init

theorem pendingInv_hmi (s : Sessions) (m : String) (d : UserData)
    (hst : d.state = some "connecting_wallet") (hInv : PendingInv d) :
    PendingInv (handle_mnemonic_input s m d).data := by
  have hpf : d.pending_txn.isSome = false := by
    rcases h : d.pending_txn.isSome with _ | _
    · rfl
    · have := hInv.mp h
      rw [hst] at this
      exact absurd this (by decide)
  simp only [handle_mnemonic_input]
  split
  · exact hInv
  · simp [PendingInv, hpf]

theorem pendingInv_hcp (env : Env) (uid : String) (s : Sessions) (pw : String)
    (d : UserData) : PendingInv (handle_connection_password env uid s pw d).data := by
  simp only [handle_connection_password]
  cases d.mnemonic <;> cases env.connectRes <;> exact pendingInv_init

theorem pendingInv_htp (env : Env) (uid : String) (s : Sessions) (pw : String)
    (d : UserData) (hInv : PendingInv d) :
    PendingInv (handle_transaction_password env uid s pw d).data := by
  simp only [handle_transaction_password]
  cases hp : d.pending_txn with
  | none => exact pendingInv_init
  | some pending =>
    by_cases hok : env.signOk pw = true
    · by_cases hk : d.transaction_type.getD "send" = "nft" <;>
        simp [hok, hk, pendingInv_init]
    · by_cases hcap : MAX_PASSWORD_ATTEMPTS ≤ d.failed_attempts + 1
      · simp [hok, hcap, pendingInv_init]
      · have hst := hInv.mp (by rw [hp]; rfl)
        simp [hok, hcap, PendingInv, hp, hst]

theorem pendingInv_hst (env : Env) (uid : String) (s : Sessions) (p : Parsed)
    (d : UserData) (hInv : PendingInv d) :
    PendingInv (handle_send_transaction env uid s p d).data := by
  simp only [handle_send_transaction]
  split
  · exact hInv
  · split
    · exact hInv
    · split
      · exact hInv
      · split
        · exact hInv
        · split
          · exact hInv
          · split
            · exact hInv
            · exact hInv
            · simp [PendingInv]

theorem pendingInv_hnc (env : Env) (uid : String) (s : Sessions) (p : Parsed)
    (d : UserData) (hInv : PendingInv d) :
    PendingInv (handle_nft_creation env uid s p d).data := by
  simp only [handle_nft_creation]
  split
  · exact hInv
  · split
    · exact hInv
    · split
      · exact hInv
      · split
        · exact hInv
        · exact hInv
        · simp [PendingInv]

theorem pendingInv_hbc (env : Env) (uid : String) (s : Sessions)
    (d : UserData) (hInv : PendingInv d) :
    PendingInv (handle_balance_check env uid s d).data := by
  simp only [handle_balance_check]
  split
  · exact hInv
  · split <;> exact hInv

theorem pendingInv_hdis (uid : String) (s : Sessions) (d : UserData) :
    PendingInv (handle_disconnect uid s d).data := pendingInv_init

theorem pendingInv_hcs (env : Env) (uid : String) (s : Sessions) (t : String)
    (d : UserData) (hInv : PendingInv d) :
    PendingInv (handle_conversation_state env uid s t d).data := by
  simp only [handle_conversation_state]
  split
  · exact hInv
  · split
    · exact pendingInv_init
    · split
      · next hst => exact pendingInv_hwcp env uid s _ d hInv
      · next hst => exact pendingInv_hmi s _ d hst hInv
      · next hst => exact pendingInv_hcp env uid s _ d
      · next hst => exact pendingInv_htp env uid s _ d hInv
      · exact pendingInv_init

theorem pendingInv_handle_message (env : Env) (uid : String) (s : Sessions)
    (t : String) (d : UserData) (hInv : PendingInv d) :
    PendingInv (handle_message env uid s t d).data := by
  simp only [handle_message]
  split
  · exact hInv
  · split
    · exact hInv
    · split
      · exact pendingInv_hcs env uid _ t d hInv
      · next hnot =>
        have hstate : d.state = none := by
          rcases h : d.state with _ | st
          · rfl
          · exact absurd (by rw [h]; rfl) hnot
        have hpf : d.pending_txn.isSome = false := by
          rcases h : d.pending_txn.isSome with _ | _
          · rfl
          · have := hInv.mp h
            rw [hstate] at this
            exact absurd this (by decide)
        split
        · exact hInv
        · split
          · simp [PendingInv, hpf]
          · split
            · simp [PendingInv, hpf]
            · split
              · exact pendingInv_hst env uid _ _ d hInv
              · split
                · exact pendingInv_hnc env uid _ _ d hInv
                · split
                  · exact pendingInv_hdis uid
                      (check_user_rate_limit s uid "general" env.now).2 d
                  · split
                    · exact pendingInv_hbc env uid _ d hInv
                    · exact hInv

/-- C2: in every reachable conversation context, the pending
unsigned-transaction handle is present iff the state is
`transaction_password`: every step that enters that state stores a handle
in the same step, every exit removes it, and no other state holds one. -/
theorem c2_pending_iff_password_state (d : UserData) (hd : Reachable d) :
    d.pending_txn.isSome = true ↔ d.state = some "transaction_password" := by
  induction hd with
  | refl => exact pendingInv_init
  | tail _ hstep ih =>
    obtain ⟨env, uid, s, t, rfl⟩ := hstep
    exact pendingInv_handle_message env uid s t _ ih

/-- C2 witness: the invariant at the initial context, and along one
concrete step that enters `transaction_password` (an `awaiting_approval`
build stores the handle as it sets the state). -/
theorem c2_pending_iff_password_witness :
    (UserData.init.pending_txn.isSome = true ↔
      UserData.init.state = some "transaction_password")
    ∧ ((handle_message
        { aiResult := some { intent := "send_algo", amount := some 5, recipient := some addr58 },
          sendBuild := some (some 11) } "u"
        (Sessions.empty.set "u" { last_activity := some 0 }) "send 5 algo to me" UserData.init).data.pending_txn.isSome = true ↔
      (handle_message
        { aiResult := some { intent := "send_algo", amount := some 5, recipient := some addr58 },
          sendBuild := some (some 11) } "u"
        (Sessions.empty.set "u" { last_activity := some 0 }) "send 5 algo to me" UserData.init).data.state = some "transaction_password") := by
  constructor
  · exact c2_pending_iff_password_state UserData.init Relation.ReflTransGen.refl
  · exact c2_pending_iff_password_state _
      (Relation.ReflTransGen.tail Relation.ReflTransGen.refl
        ⟨{ aiResult := some { intent := "send_algo", amount := some 5, recipient := some addr58 },
           sendBuild := some (some 11) }, "u",
         Sessions.empty.set "u" { last_activity := some 0 }, "send 5 algo to me", rfl⟩)

end AlgoIntent
